import Mathlib

/-!
Shallow embedding of the launch-configuration resolver and the settings
persistence logic of the Dan-Launcher repository (src/launcher.py), together
with theorems settling the specification claims about them.

The embedding mirrors `MinecraftLauncher.launch_minecraft` (validation, the
installed check, the mod-loader variant search, JVM-argument assembly, the
options dictionary), the recent-versions / statistics trackers updated inside
the launch worker, and `save_settings` / `export_settings` / `import_settings`.
-/

namespace Launcher

/-- Keep the last `n` elements of a list; embeds Python's `l[-n:]`. -/
def takeLast (n : Nat) (l : List α) : List α :=
  l.drop (l.length - n)

/-- Python `str.strip()`: drop whitespace from both ends. -/
def pyStrip (s : String) : String :=
  String.mk (((s.data.dropWhile Char.isWhitespace).reverse.dropWhile
    Char.isWhitespace).reverse)

/-- Python `str.lower()` on the characters of the string. -/
def pyLower (s : String) : String :=
  String.mk (s.data.map Char.toLower)

/-- Python `any(char.isdigit() for char in s)`. -/
def containsDigit (s : String) : Bool :=
  s.data.any Char.isDigit

/-- Embeds the version validation of `launch_minecraft` (launcher.py 1577-1588)
applied to the already-stripped version string: not empty, not the UI
placeholder token `"value"` (compared case-insensitively), and containing at
least one digit character. -/
def versionCheck (version : String) : Bool :=
  !(version == "" || pyLower version == "value") && containsDigit version

/-- Embeds the mod-loader variant search (launcher.py 1614-1631): when the
loader is not `"vanilla"`, probe the installed set for `"<loader>-<version>"`
then `"<version>-<loader>"`; the first hit wins, otherwise fall back to the
base version.  The two-element candidate loop with `break` is unrolled. -/
def variantSearch (modLoader version : String) (installed : List String) : String :=
  if modLoader = "vanilla" then version
  else if (modLoader ++ "-" ++ version) ∈ installed then
    modLoader ++ "-" ++ version
  else if (version ++ "-" ++ modLoader) ∈ installed then
    version ++ "-" ++ modLoader
  else version

/-- The generated maximum-heap flag `-Xmx{ram}M` (launcher.py 1640). -/
def xmxFlag (ramMb : Nat) : String := "-Xmx" ++ toString ramMb ++ "M"

/-- The generated initial-heap flag `-Xms{ram // 2}M` (launcher.py 1641). -/
def xmsFlag (ramMb : Nat) : String := "-Xms" ++ toString (ramMb / 2) ++ "M"

/-- Embeds JVM-argument assembly (launcher.py 1637-1652): the two memory flags
followed by each custom line stripped, blank lines skipped, order kept. -/
def buildJvmArgs (ramMb : Nat) (customLines : List String) : List String :=
  ("-Xmx" ++ toString ramMb ++ "M") :: ("-Xms" ++ toString (ramMb / 2) ++ "M") ::
    (customLines.map pyStrip).filter (fun a => a ≠ "")

/-- Input aggregate for one launch attempt, snapshotting the UI variables read
by `launch_minecraft` (version_var, mod_loader_var, username_var, ram_var,
the custom-JVM text split into lines, java_path_var, window and server vars). -/
structure LaunchRequest where
  baseVersion : String
  modLoader : String
  username : String
  ramMegabytes : Nat
  customJvmArgs : List String
  javaPath : String
  windowWidth : Nat
  windowHeight : Nat
  fullscreen : Bool
  serverHost : String
  serverPort : String
deriving Repr, DecidableEq

/-- Error classification of the failure dialogs of `launch_minecraft`,
following the spec taxonomy: `InvalidVersion` for the two version-validation
dialogs, `MissingUsername`, `VersionNotInstalled` for the manifest check,
`BackendCommandError` for `get_minecraft_command` failures and
`ProcessStartError` for `subprocess.Popen` failures. -/
inductive LaunchError where
  | InvalidVersion (version : String)
  | MissingUsername
  | VersionNotInstalled (version : String)
  | BackendCommandError (version : String)
  | ProcessStartError
deriving Repr, DecidableEq

/-- Output aggregate: the version id handed to the backend plus the options
dictionary assembled at launcher.py 1633-1673. -/
structure ResolvedLaunch where
  effectiveVersion : String
  username : String
  jvmArguments : List String
  executablePath : String
  customResolution : Bool
  resolutionWidth : String
  resolutionHeight : String
  server : Option String
  port : Option String
deriving Repr, DecidableEq

/-- Embeds the resolution phase of `launch_minecraft` (launcher.py 1575-1673):
validate the stripped version, validate the stripped username, check that the
BASE version has a manifest (`os.path.exists` becomes membership in
`installed`), then run the variant search and assemble the options. -/
def resolve (req : LaunchRequest) (installed : List String) :
    Except LaunchError ResolvedLaunch :=
  let version := pyStrip req.baseVersion
  if version = "" ∨ pyLower version = "value" then
    .error (.InvalidVersion version)
  else if containsDigit version = false then
    .error (.InvalidVersion version)
  else if pyStrip req.username = "" then
    .error .MissingUsername
  else if version ∉ installed then
    .error (.VersionNotInstalled version)
  else
    let launchVersion := variantSearch req.modLoader version installed
    let serverIp := pyStrip req.serverHost
    let serverPort := pyStrip req.serverPort
    .ok
      { effectiveVersion := launchVersion
        username := pyStrip req.username
        jvmArguments := buildJvmArgs req.ramMegabytes req.customJvmArgs
        executablePath := req.javaPath
        customResolution := true
        resolutionWidth := toString req.windowWidth
        resolutionHeight := toString req.windowHeight
        server := if serverIp = "" then none else some serverIp
        port :=
          if serverIp = "" then none
          else if serverPort = "" then none
          else some serverPort }

/-- Embeds the recent-versions update (launcher.py 1675-1681): move-to-end on
a re-launch, append otherwise, then keep the last 10. -/
def updateRecent (l : List String) (v : String) : List String :=
  takeLast 10 ((if v ∈ l then l.erase v else l) ++ [v])

/-- The statistics aggregate kept under the `"statistics"` settings key
(launcher.py 1721-1731); `version_counts` is an insertion-ordered dictionary
embedded as an association list. -/
structure Statistics where
  total_launches : Nat
  last_launch : String
  version_counts : List (String × Nat)
  most_used_version : String
deriving Repr, DecidableEq

/-- Embeds the `version_counts` bump (launcher.py 1725-1727): a new version is
appended with count 1, an existing one has its count incremented in place. -/
def bumpCount (counts : List (String × Nat)) (v : String) : List (String × Nat) :=
  if counts.any (fun p => p.1 == v) then
    counts.map (fun p => if p.1 == v then (p.1, p.2 + 1) else p)
  else counts ++ [(v, 1)]

/-- Embeds `max(version_counts, key=version_counts.get)` (launcher.py 1730):
the first key in insertion order attaining the maximal count. -/
def mostUsed (counts : List (String × Nat)) : String :=
  match counts with
  | [] => ""
  | p :: rest => (rest.foldl (fun best q => if q.2 > best.2 then q else best) p).1

/-- Embeds the statistics update performed once `subprocess.Popen` has
returned a process handle (launcher.py 1721-1731). -/
def updateStats (stats : Statistics) (v : String) (now : String) : Statistics :=
  let counts := bumpCount stats.version_counts v
  { total_launches := stats.total_launches + 1
    last_launch := now
    version_counts := counts
    most_used_version := mostUsed counts }

/-- The mutable launcher state touched by the launch worker: the
recent-versions list and the statistics counters. -/
structure LauncherState where
  recent_versions : List String
  statistics : Statistics
deriving Repr, DecidableEq

/-- Outcome reported by the launch backend: `get_minecraft_command` raised,
`subprocess.Popen` raised, or a process handle was obtained. -/
inductive BackendOutcome where
  | commandError
  | processError
  | started
deriving Repr, DecidableEq

/-- Result of one pass through the launch worker. -/
inductive LaunchResult where
  | ok (effectiveVersion : String)
  | err (e : LaunchError)
deriving Repr, DecidableEq

/-- Embeds one run of `launch_minecraft` plus its `launch` worker
(launcher.py 1575-1750) as a step on `LauncherState`: validation and the
installed check leave the state untouched; past them the recent-versions list
is updated (launcher.py 1675-1681) BEFORE the backend is invoked, and the
statistics are updated only in the `started` outcome (launcher.py 1721-1731). -/
def launchStep (st : LauncherState) (req : LaunchRequest) (installed : List String)
    (outcome : BackendOutcome) (now : String) : LauncherState × LaunchResult :=
  let version := pyStrip req.baseVersion
  if version = "" ∨ pyLower version = "value" then
    (st, .err (.InvalidVersion version))
  else if containsDigit version = false then
    (st, .err (.InvalidVersion version))
  else if pyStrip req.username = "" then
    (st, .err .MissingUsername)
  else if version ∉ installed then
    (st, .err (.VersionNotInstalled version))
  else
    let launchVersion := variantSearch req.modLoader version installed
    let st1 : LauncherState :=
      { st with recent_versions := updateRecent st.recent_versions launchVersion }
    match outcome with
    | .commandError => (st1, .err (.BackendCommandError launchVersion))
    | .processError => (st1, .err .ProcessStartError)
    | .started =>
        ({ st1 with statistics := updateStats st1.statistics launchVersion now },
         .ok launchVersion)

/-- A JSON-ish value stored in the settings document. -/
inductive SettingValue where
  | str (s : String)
  | num (n : Nat)
  | boolean (b : Bool)
  | list (l : List String)
deriving Repr, DecidableEq

/-- The settings document: an insertion-ordered dictionary embedded as an
association list with unique keys. -/
abbrev SettingsDict := List (String × SettingValue)

/-- Python dict assignment `d[k] = v`: replace in place if the key exists,
append otherwise. -/
def dictInsert (d : SettingsDict) (k : String) (v : SettingValue) : SettingsDict :=
  if d.any (fun p => p.1 == k) then
    d.map (fun p => if p.1 == k then (k, v) else p)
  else d ++ [(k, v)]

/-- Python `d.update(other)`: insert every pair of `other` in order. -/
def dictUpdate (d other : SettingsDict) : SettingsDict :=
  other.foldl (fun acc p => dictInsert acc p.1 p.2) d

/-- Python `d.get(k)` on the settings dictionary. -/
def dictGet (d : SettingsDict) (k : String) : Option SettingValue :=
  (d.find? (fun p => p.1 == k)).map (fun p => p.2)

/-- `d.get(k, default)` read back into a string-typed launcher field. -/
def getStr (d : SettingsDict) (k dflt : String) : String :=
  match dictGet d k with
  | some (.str v) => v
  | _ => dflt

/-- `d.get(k, default)` read back into a numeric launcher field. -/
def getNat (d : SettingsDict) (k : String) (dflt : Nat) : Nat :=
  match dictGet d k with
  | some (.num v) => v
  | _ => dflt

/-- `d.get(k, default)` read back into a boolean launcher field. -/
def getBool (d : SettingsDict) (k : String) (dflt : Bool) : Bool :=
  match dictGet d k with
  | some (.boolean v) => v
  | _ => dflt

/-- The in-memory launcher attributes involved in settings persistence:
`self.settings` plus the fourteen instance fields that `save_settings`
serializes (launcher.py 45-60, 223-243). -/
structure AppState where
  settings : SettingsDict
  selected_version : String
  selected_mod_loader : String
  java_path : String
  allocated_ram : Nat
  username : String
  window_width : Nat
  window_height : Nat
  fullscreen : Bool
  custom_jvm_args : String
  server_ip : String
  server_port : String
  favorite_versions : List String
  recent_versions : List String
  theme : String
deriving Repr, DecidableEq

/-- The document that `save_settings` builds (launcher.py 226-241): exactly
fourteen keys, each recomputed from the corresponding instance field. -/
def settingsDoc (st : AppState) : SettingsDict :=
  [("selected_version", .str st.selected_version),
   ("selected_mod_loader", .str st.selected_mod_loader),
   ("java_path", .str st.java_path),
   ("allocated_ram", .num st.allocated_ram),
   ("username", .str st.username),
   ("window_width", .num st.window_width),
   ("window_height", .num st.window_height),
   ("fullscreen", .boolean st.fullscreen),
   ("custom_jvm_args", .str st.custom_jvm_args),
   ("server_ip", .str st.server_ip),
   ("server_port", .str st.server_port),
   ("favorite_versions", .list st.favorite_versions),
   ("recent_versions", .list (takeLast 10 st.recent_versions)),
   ("theme", .str st.theme)]

/-- Embeds `save_settings` (launcher.py 223-243): rebuild `self.settings` as
the fourteen-key document and write that document to the settings file. The
second component is the persisted file content. -/
def save_settings (st : AppState) : AppState × SettingsDict :=
  let doc := settingsDoc st
  ({ st with settings := doc }, doc)

/-- Embeds `export_settings` (launcher.py 731-744): dump the in-memory
`self.settings` dictionary verbatim to the chosen file. -/
def export_settings (st : AppState) : SettingsDict :=
  st.settings

/-- Embeds `import_settings` (launcher.py 746-771): merge the imported
dictionary into `self.settings`, reload ten recognized fields from the merged
dictionary (`javaFallback` stands for the `find_java()` probe used as the
`java_path` default), then call `save_settings`.  The second component is the
document persisted by that final save. -/
def import_settings (st : AppState) (imported : SettingsDict)
    (javaFallback : String) : AppState × SettingsDict :=
  let settings := dictUpdate st.settings imported
  let st' : AppState :=
    { st with
      settings := settings
      selected_version := getStr settings "selected_version" ""
      selected_mod_loader := getStr settings "selected_mod_loader" "vanilla"
      java_path := getStr settings "java_path" javaFallback
      allocated_ram := getNat settings "allocated_ram" 4096
      username := getStr settings "username" "Player"
      window_width := getNat settings "window_width" 854
      window_height := getNat settings "window_height" 480
      fullscreen := getBool settings "fullscreen" false
      custom_jvm_args := getStr settings "custom_jvm_args" ""
      theme := getStr settings "theme" "light" }
  save_settings st'

/-- The fourteen keys `save_settings` writes, in document order. -/
def knownKeys : List String :=
  ["selected_version", "selected_mod_loader", "java_path", "allocated_ram",
   "username", "window_width", "window_height", "fullscreen",
   "custom_jvm_args", "server_ip", "server_port", "favorite_versions",
   "recent_versions", "theme"]

/-- Concrete request used in the spec scenarios: base version 1.20.1 with the
fabric loader, username Steve, 4096 MB, one custom flag plus a blank line. -/
def reqFabric : LaunchRequest :=
  { baseVersion := "1.20.1", modLoader := "fabric", username := "Steve",
    ramMegabytes := 4096, customJvmArgs := ["-XX:+UseG1GC", ""],
    javaPath := "java", windowWidth := 854, windowHeight := 480,
    fullscreen := false, serverHost := "", serverPort := "25565" }

/-- Installed set holding the base version and both composite variants. -/
def installedAll : List String := ["1.20.1", "1.20.1-fabric", "fabric-1.20.1"]

/-- The resolved launch produced for `reqFabric` against `installedAll`. -/
def resFabric : ResolvedLaunch :=
  { effectiveVersion := "fabric-1.20.1", username := "Steve",
    jvmArguments := ["-Xmx4096M", "-Xms2048M", "-XX:+UseG1GC"],
    executablePath := "java", customResolution := true,
    resolutionWidth := "854", resolutionHeight := "480",
    server := none, port := none }

/-- Concrete request for the server-join scenario: non-empty host, empty
port. -/
def reqServer : LaunchRequest :=
  { baseVersion := "1.20.1", modLoader := "vanilla", username := "Steve",
    ramMegabytes := 4096, customJvmArgs := [], javaPath := "java",
    windowWidth := 854, windowHeight := 480, fullscreen := false,
    serverHost := "play.example.com", serverPort := "" }

/-- The resolved launch produced for `reqServer` against an installed 1.20.1. -/
def resServer : ResolvedLaunch :=
  { effectiveVersion := "1.20.1", username := "Steve",
    jvmArguments := ["-Xmx4096M", "-Xms2048M"],
    executablePath := "java", customResolution := true,
    resolutionWidth := "854", resolutionHeight := "480",
    server := some "play.example.com", port := none }

/-- Concrete request whose version and username are both empty. -/
def reqNoVersion : LaunchRequest :=
  { baseVersion := "", modLoader := "vanilla", username := "",
    ramMegabytes := 4096, customJvmArgs := [], javaPath := "java",
    windowWidth := 854, windowHeight := 480, fullscreen := false,
    serverHost := "", serverPort := "25565" }

/-- Concrete request with a valid version but a whitespace-only username. -/
def reqBlankUser : LaunchRequest :=
  { baseVersion := "1.20.1", modLoader := "vanilla", username := "   ",
    ramMegabytes := 4096, customJvmArgs := [], javaPath := "java",
    windowWidth := 854, windowHeight := 480, fullscreen := false,
    serverHost := "", serverPort := "25565" }

/-- Fresh launcher state: no recent versions, zeroed statistics. -/
def st0 : LauncherState :=
  { recent_versions := [],
    statistics :=
      { total_launches := 0, last_launch := "",
        version_counts := [], most_used_version := "" } }

/-- Concrete in-memory application state whose settings dictionary holds one
key the launcher does not recognize. -/
def baseApp : AppState :=
  { settings := [("my_plugin_data", .str "keep-me")],
    selected_version := "1.20.1", selected_mod_loader := "vanilla",
    java_path := "java", allocated_ram := 4096, username := "Steve",
    window_width := 854, window_height := 480, fullscreen := false,
    custom_jvm_args := "", server_ip := "", server_port := "25565",
    favorite_versions := [], recent_versions := [], theme := "light" }

/-! Helper lemmas. -/

/-- Unfolds the Boolean version check into its three component conditions. -/
theorem versionCheck_eq_true_iff (v : String) :
    versionCheck v = true ↔
      ¬(v = "" ∨ pyLower v = "value") ∧ containsDigit v = true := by
  simp [versionCheck, not_or]

/-- The two generated memory flags are distinct strings for every RAM value:
they differ at their fourth character. -/
theorem xmxFlag_ne_xmsFlag (R : Nat) : xmxFlag R ≠ xmsFlag R := by
  intro h
  have h2 : (xmxFlag R).data = (xmsFlag R).data := congrArg String.data h
  simp only [xmxFlag, xmsFlag, String.data_append] at h2
  simp at h2

/-- Dropping fewer elements than the length preserves the last element. -/
theorem getLast_drop_of_lt {α : Type} (l : List α) (n : Nat) (h : n < l.length) :
    (l.drop n).getLast? = l.getLast? := by
  induction l generalizing n with
  | nil => simp at h
  | cons a t ih =>
    cases n with
    | zero => simp
    | succ m =>
      simp only [List.drop_succ_cons]
      rw [ih m (by simpa using h)]
      cases t with
      | nil => simp at h
      | cons b t' => simp

/-! Claim C1. -/

/-- Claim C1 counterexample: for the spec scenario (base version 1.20.1,
fabric loader, InstalledSet containing only fabric-1.20.1) the variant the
variant-search step would choose IS a member of the installed set, yet
resolution fails with VersionNotInstalled for the base version, because the
installed check runs on the base version before the variant search; the claim
said this request succeeds. -/
theorem c1_counterexample :
    variantSearch "fabric" "1.20.1" ["fabric-1.20.1"] = "fabric-1.20.1"
    ∧ ("fabric-1.20.1" : String) ∈ ["fabric-1.20.1"]
    ∧ resolve reqFabric ["fabric-1.20.1"]
        = .error (.VersionNotInstalled "1.20.1") :=
  ⟨rfl, by decide, rfl⟩

/-- Claim C1 (amended): resolution fails with VersionNotInstalled exactly when
version and username validation pass and the stripped BASE version is not a
member of the installed set; the installed check precedes the variant search
and never consults the composite variants. -/
theorem c1_not_installed_iff (req : LaunchRequest) (installed : List String) :
    resolve req installed = .error (.VersionNotInstalled (pyStrip req.baseVersion)) ↔
      versionCheck (pyStrip req.baseVersion) = true ∧ pyStrip req.username ≠ "" ∧
        pyStrip req.baseVersion ∉ installed := by
  rw [versionCheck_eq_true_iff]
  simp only [resolve]
  by_cases h1 : (pyStrip req.baseVersion = "" ∨ pyLower (pyStrip req.baseVersion) = "value")
  · simp [h1]
  · simp only [if_neg h1]
    by_cases h2 : containsDigit (pyStrip req.baseVersion) = false
    · simp [h1, h2]
    · have h2' : containsDigit (pyStrip req.baseVersion) = true := by
        revert h2; cases containsDigit (pyStrip req.baseVersion) <;> simp
      simp only [if_neg h2]
      by_cases h3 : pyStrip req.username = ""
      · simp [h1, h2', h3]
      · simp only [if_neg h3]
        by_cases h4 : pyStrip req.baseVersion ∈ installed
        · simp [h1, h2', h3, h4]
        · simp [h1, h2', h3, h4]

/-! Claim C2. -/

/-- Claim C2 counterexample: with ramMegabytes 4096 and the single custom
argument -Xmx4096M, the assembled list contains the string -Xmx4096M twice,
not exactly once, because custom arguments are never deduplicated against the
generated memory flags. -/
theorem c2_counterexample :
    buildJvmArgs 4096 ["-Xmx4096M"] = ["-Xmx4096M", "-Xms2048M", "-Xmx4096M"]
    ∧ (buildJvmArgs 4096 ["-Xmx4096M"]).count "-Xmx4096M" = 2 :=
  ⟨rfl, by decide⟩

/-- Claim C2 (amended): the assembled list is exactly the generated flags
-Xmx{R}M then -Xms{R//2}M, in that order, followed by the custom lines
trimmed, blanks skipped, order preserved and never deduplicated; hence each
memory flag occurs once among the generated flags, plus however many times it
occurs among the processed custom arguments. -/
theorem c2_jvm_args (R : Nat) (custom : List String) :
    buildJvmArgs R custom
      = xmxFlag R :: xmsFlag R :: (custom.map pyStrip).filter (fun a => a ≠ "")
    ∧ (buildJvmArgs R custom).count (xmxFlag R)
        = 1 + ((custom.map pyStrip).filter (fun a => a ≠ "")).count (xmxFlag R)
    ∧ (buildJvmArgs R custom).count (xmsFlag R)
        = 1 + ((custom.map pyStrip).filter (fun a => a ≠ "")).count (xmsFlag R) := by
  have hne : ("-Xmx" ++ toString R ++ "M" : String) ≠ ("-Xms" ++ toString (R / 2) ++ "M") :=
    xmxFlag_ne_xmsFlag R
  refine ⟨rfl, ?_, ?_⟩ <;>
    simp [buildJvmArgs, xmxFlag, xmsFlag, List.count_cons, hne, Ne.symm hne] <;> omega

/-! Claim C3. -/

/-- Claim C3: for a non-vanilla loader, whenever the composite
loader-base is installed and resolution succeeds, the effective version is
that composite — regardless of whether base-loader is also installed, since
the loader-base probe comes first. -/
theorem c3_loader_base_precedence (req : LaunchRequest) (installed : List String)
    (r : ResolvedLaunch) (hml : req.modLoader ≠ "vanilla")
    (hmem : (req.modLoader ++ "-" ++ pyStrip req.baseVersion) ∈ installed)
    (hok : resolve req installed = .ok r) :
    r.effectiveVersion = req.modLoader ++ "-" ++ pyStrip req.baseVersion := by
  simp only [resolve] at hok
  by_cases h1 : (pyStrip req.baseVersion = "" ∨ pyLower (pyStrip req.baseVersion) = "value")
  · simp [h1] at hok
  · simp only [if_neg h1] at hok
    by_cases h2 : containsDigit (pyStrip req.baseVersion) = false
    · simp [h2] at hok
    · simp only [if_neg h2] at hok
      by_cases h3 : pyStrip req.username = ""
      · simp [h3] at hok
      · simp only [if_neg h3] at hok
        by_cases h4 : pyStrip req.baseVersion ∈ installed
        · simp only [if_neg (by simpa using h4 : ¬ (pyStrip req.baseVersion ∉ installed))] at hok
          have := congrArg ResolvedLaunch.effectiveVersion (Except.ok.inj hok).symm
          simp only [this]
          simp [variantSearch, hml, hmem]
        · simp [h4] at hok

/-- Claim C3 witness: the fabric request against an installed set holding the
base and both composites resolves with effective version fabric-1.20.1, the
loader-base composite. -/
theorem c3_witness :
    resolve reqFabric installedAll = .ok resFabric
    ∧ resFabric.effectiveVersion
        = reqFabric.modLoader ++ "-" ++ pyStrip reqFabric.baseVersion := by
  have hok : resolve reqFabric installedAll = .ok resFabric := by rfl
  exact ⟨hok,
    c3_loader_base_precedence reqFabric installedAll resFabric (by decide) (by decide) hok⟩

/-! Claim C4. -/

/-- Claim C4: for a non-vanilla loader with neither composite variant
installed, the variant search returns the base version unchanged; any
successful resolution has the base version as effective version, and when the
validations pass and the base version is installed, resolution does succeed
(the variant-search step itself raises no error). -/
theorem c4_variant_fallback (req : LaunchRequest) (installed : List String)
    (hml : req.modLoader ≠ "vanilla")
    (hA : (req.modLoader ++ "-" ++ pyStrip req.baseVersion) ∉ installed)
    (hB : (pyStrip req.baseVersion ++ "-" ++ req.modLoader) ∉ installed) :
    variantSearch req.modLoader (pyStrip req.baseVersion) installed
      = pyStrip req.baseVersion
    ∧ (∀ r, resolve req installed = .ok r →
        r.effectiveVersion = pyStrip req.baseVersion)
    ∧ (versionCheck (pyStrip req.baseVersion) = true → pyStrip req.username ≠ "" →
        pyStrip req.baseVersion ∈ installed →
        ∃ r, resolve req installed = .ok r
          ∧ r.effectiveVersion = pyStrip req.baseVersion) := by
  have hvs : variantSearch req.modLoader (pyStrip req.baseVersion) installed
      = pyStrip req.baseVersion := by
    simp [variantSearch, hml, hA, hB]
  refine ⟨hvs, ?_, ?_⟩
  · intro r hok
    simp only [resolve] at hok
    by_cases h1 : (pyStrip req.baseVersion = "" ∨ pyLower (pyStrip req.baseVersion) = "value")
    · simp [h1] at hok
    · simp only [if_neg h1] at hok
      by_cases h2 : containsDigit (pyStrip req.baseVersion) = false
      · simp [h2] at hok
      · simp only [if_neg h2] at hok
        by_cases h3 : pyStrip req.username = ""
        · simp [h3] at hok
        · simp only [if_neg h3] at hok
          by_cases h4 : pyStrip req.baseVersion ∈ installed
          · simp only [if_neg (by simpa using h4 : ¬ (pyStrip req.baseVersion ∉ installed))] at hok
            have := congrArg ResolvedLaunch.effectiveVersion (Except.ok.inj hok).symm
            simp only [this]
            exact hvs
          · simp [h4] at hok
  · intro hvc hu hmem
    rw [versionCheck_eq_true_iff] at hvc
    have hres :
        resolve req installed
          = .ok { effectiveVersion :=
                    variantSearch req.modLoader (pyStrip req.baseVersion) installed
                  username := pyStrip req.username
                  jvmArguments := buildJvmArgs req.ramMegabytes req.customJvmArgs
                  executablePath := req.javaPath
                  customResolution := true
                  resolutionWidth := toString req.windowWidth
                  resolutionHeight := toString req.windowHeight
                  server := if pyStrip req.serverHost = "" then none
                    else some (pyStrip req.serverHost)
                  port := if pyStrip req.serverHost = "" then none
                    else if pyStrip req.serverPort = "" then none
                    else some (pyStrip req.serverPort) } := by
      simp only [resolve]
      rw [if_neg hvc.1, if_neg (by simp [hvc.2]), if_neg hu,
        if_neg (by simpa using hmem)]
    exact ⟨_, hres, by simpa using hvs⟩

/-- Claim C4 witness: for the fabric request against an installed set holding
only the base 1.20.1, the variant search falls back to 1.20.1. -/
theorem c4_witness :
    variantSearch reqFabric.modLoader (pyStrip reqFabric.baseVersion) ["1.20.1"]
      = pyStrip reqFabric.baseVersion :=
  (c4_variant_fallback reqFabric ["1.20.1"] (by decide) (by decide) (by decide)).1

/-! Claim C5. -/

/-- Claim C5 counterexample: for the spec scenario (host play.example.com,
empty port) the resolved options carry the server host but NO port at all —
not the claimed default of 25565. -/
theorem c5_counterexample :
    (resolve reqServer ["1.20.1"]).toOption.map
        (fun r => (r.server, r.port))
      = some (some "play.example.com", none)
    ∧ (resolve reqServer ["1.20.1"]).toOption.map (fun r => r.port)
        ≠ some (some "25565") := by
  exact ⟨rfl, by decide⟩

/-- Claim C5 (amended): on success the options carry the stripped server host
when it is non-empty, and a port only when the stripped port is also
non-empty; an empty port yields no port entry rather than a 25565 default
(any default is left to the backend). -/
theorem c5_server_join (req : LaunchRequest) (installed : List String)
    (r : ResolvedLaunch) (hok : resolve req installed = .ok r) :
    r.server = (if pyStrip req.serverHost = "" then none
        else some (pyStrip req.serverHost))
    ∧ r.port = (if pyStrip req.serverHost = "" then none
        else if pyStrip req.serverPort = "" then none
        else some (pyStrip req.serverPort)) := by
  simp only [resolve] at hok
  by_cases h1 : (pyStrip req.baseVersion = "" ∨ pyLower (pyStrip req.baseVersion) = "value")
  · simp [h1] at hok
  · simp only [if_neg h1] at hok
    by_cases h2 : containsDigit (pyStrip req.baseVersion) = false
    · simp [h2] at hok
    · simp only [if_neg h2] at hok
      by_cases h3 : pyStrip req.username = ""
      · simp [h3] at hok
      · simp only [if_neg h3] at hok
        by_cases h4 : pyStrip req.baseVersion ∈ installed
        · simp only [if_neg (by simpa using h4 : ¬ (pyStrip req.baseVersion ∉ installed))] at hok
          have hs := congrArg ResolvedLaunch.server (Except.ok.inj hok).symm
          have hp := congrArg ResolvedLaunch.port (Except.ok.inj hok).symm
          exact ⟨hs, hp⟩
        · simp [h4] at hok

/-- Claim C5 witness: the server scenario resolves with host
play.example.com and no port. -/
theorem c5_witness :
    resServer.server = (if pyStrip reqServer.serverHost = "" then none
        else some (pyStrip reqServer.serverHost))
    ∧ resServer.port = (if pyStrip reqServer.serverHost = "" then none
        else if pyStrip reqServer.serverPort = "" then none
        else some (pyStrip reqServer.serverPort)) :=
  c5_server_join reqServer ["1.20.1"] resServer (by rfl)

/-! Claim C6. -/

/-- Claim C6: when the stripped base version fails the validation check
(empty, the placeholder token, or no digit) resolution fails with
InvalidVersion for every installed set and every username — so before any
installed-set lookup and before the username check; when the version is valid
and the stripped username is empty, resolution fails with MissingUsername. -/
theorem c6_validation_order (req : LaunchRequest) (installed : List String) :
    (versionCheck (pyStrip req.baseVersion) = false →
      resolve req installed = .error (.InvalidVersion (pyStrip req.baseVersion)))
    ∧ (versionCheck (pyStrip req.baseVersion) = true → pyStrip req.username = "" →
      resolve req installed = .error .MissingUsername) := by
  constructor
  · intro hvc
    simp only [resolve]
    by_cases h1 : (pyStrip req.baseVersion = "" ∨ pyLower (pyStrip req.baseVersion) = "value")
    · rw [if_pos h1]
    · rw [if_neg h1]
      have h2 : containsDigit (pyStrip req.baseVersion) = false := by
        by_contra h2
        have h2' : containsDigit (pyStrip req.baseVersion) = true := by
          revert h2; cases containsDigit (pyStrip req.baseVersion) <;> simp
        have hgood : versionCheck (pyStrip req.baseVersion) = true :=
          (versionCheck_eq_true_iff _).mpr ⟨h1, h2'⟩
        rw [hgood] at hvc
        simp at hvc
      rw [if_pos h2]
  · intro hvc hu
    rw [versionCheck_eq_true_iff] at hvc
    simp only [resolve]
    rw [if_neg hvc.1, if_neg (by simp [hvc.2]), if_pos hu]

/-- Claim C6 witness: the empty version (with empty username too) fails with
InvalidVersion even though the installed set is non-empty, and a
whitespace-only username with a valid version fails with MissingUsername. -/
theorem c6_witness :
    resolve reqNoVersion ["1.20.1"]
      = .error (.InvalidVersion (pyStrip reqNoVersion.baseVersion))
    ∧ resolve reqBlankUser ["1.20.1"] = .error .MissingUsername :=
  ⟨(c6_validation_order reqNoVersion ["1.20.1"]).1 (by decide),
   (c6_validation_order reqBlankUser ["1.20.1"]).2 (by decide) (by decide)⟩

/-! Claim C7. -/

/-- Claim C7 counterexample: when backend command creation fails, the launch
attempt errors out, yet the recent-versions list HAS been updated (from empty
to the launched version) — the claim said it is never updated when resolution
fails at backend command creation. -/
theorem c7_counterexample :
    (launchStep st0 reqFabric ["1.20.1", "fabric-1.20.1"]
        .commandError "2026-01-01 00:00:00").2
      = .err (.BackendCommandError "fabric-1.20.1")
    ∧ (launchStep st0 reqFabric ["1.20.1", "fabric-1.20.1"]
        .commandError "2026-01-01 00:00:00").1.recent_versions
      = ["fabric-1.20.1"]
    ∧ st0.recent_versions = [] :=
  ⟨rfl, rfl, rfl⟩

/-- Claim C7 (amended): on a resolution failure (validation or installed
check) the state is untouched; the statistics change only when a process
handle was obtained; on success both trackers are updated; but when backend
command creation fails the recent-versions list has already been updated while
the statistics remain unchanged. -/
theorem c7_update_timing (st : LauncherState) (req : LaunchRequest)
    (installed : List String) (outcome : BackendOutcome) (now : String) :
    ((∃ e, resolve req installed = .error e) →
      (launchStep st req installed outcome now).1 = st)
    ∧ (outcome ≠ .started →
      (launchStep st req installed outcome now).1.statistics = st.statistics)
    ∧ (∀ v, (launchStep st req installed outcome now).2 = .ok v →
      (launchStep st req installed outcome now).1.recent_versions
          = updateRecent st.recent_versions v
        ∧ (launchStep st req installed outcome now).1.statistics
          = updateStats st.statistics v now)
    ∧ (∀ v, (launchStep st req installed outcome now).2
          = .err (.BackendCommandError v) →
      (launchStep st req installed outcome now).1.recent_versions
          = updateRecent st.recent_versions v
        ∧ (launchStep st req installed outcome now).1.statistics = st.statistics) := by
  simp only [launchStep, resolve]
  by_cases h1 : (pyStrip req.baseVersion = "" ∨ pyLower (pyStrip req.baseVersion) = "value")
  · simp [h1]
  · simp only [if_neg h1]
    by_cases h2 : containsDigit (pyStrip req.baseVersion) = false
    · simp [h2]
    · simp only [if_neg h2]
      by_cases h3 : pyStrip req.username = ""
      · simp [h3]
      · simp only [if_neg h3]
        by_cases h4 : pyStrip req.baseVersion ∈ installed
        · simp only [if_neg (by simpa using h4 : ¬ (pyStrip req.baseVersion ∉ installed))]
          cases outcome <;> simp
        · simp [h4]

/-- Claim C7 witness: an invalid request leaves the state untouched, and a
command-creation failure on a valid request updates the recent list but not
the statistics. -/
theorem c7_witness :
    (launchStep st0 reqNoVersion ["1.20.1"] .started "2026-01-01 00:00:00").1 = st0
    ∧ (launchStep st0 reqFabric ["1.20.1", "fabric-1.20.1"]
        .commandError "2026-01-01 00:00:00").1.recent_versions
      = updateRecent st0.recent_versions "fabric-1.20.1"
    ∧ (launchStep st0 reqFabric ["1.20.1", "fabric-1.20.1"]
        .commandError "2026-01-01 00:00:00").1.statistics = st0.statistics := by
  refine ⟨?_, ?_, ?_⟩
  · exact (c7_update_timing st0 reqNoVersion ["1.20.1"] .started
      "2026-01-01 00:00:00").1 ⟨.InvalidVersion "", rfl⟩
  · exact ((c7_update_timing st0 reqFabric ["1.20.1", "fabric-1.20.1"] .commandError
      "2026-01-01 00:00:00").2.2.2 "fabric-1.20.1" rfl).1
  · exact ((c7_update_timing st0 reqFabric ["1.20.1", "fabric-1.20.1"] .commandError
      "2026-01-01 00:00:00").2.2.2 "fabric-1.20.1" rfl).2

/-! Claim C8. -/

/-- Claim C8 counterexample: an unrecognized key present in the in-memory
settings is gone both from the document persisted by an import (which ends in
save_settings) and from the in-memory dictionary afterwards — the claim said
importing then persisting never removes an unknown key. -/
theorem c8_counterexample :
    ("my_plugin_data" ∈ baseApp.settings.map Prod.fst)
    ∧ "my_plugin_data" ∉ ((import_settings baseApp [] "java").2.map Prod.fst)
    ∧ "my_plugin_data" ∉
        ((import_settings baseApp [] "java").1.settings.map Prod.fst) := by
  refine ⟨by decide, by decide, by decide⟩

/-- Claim C8 (amended): exporting dumps the in-memory settings verbatim, so
unknown keys present in memory do reach the exported file; but the save at the
end of an import rebuilds the document from the fourteen recognized keys, so
importing then persisting drops every unknown key, from the file and from
memory alike. -/
theorem c8_import_export_keys (st : AppState) (imported : SettingsDict)
    (fb : String) :
    export_settings st = st.settings
    ∧ (import_settings st imported fb).2.map Prod.fst = knownKeys
    ∧ (import_settings st imported fb).1.settings.map Prod.fst = knownKeys := by
  exact ⟨rfl, rfl, rfl⟩

/-! Claim C9. -/

/-- Claim C9: updating a duplicate-free recent-versions list yields a
duplicate-free list of length at most 10 whose last element is the launched
version — so a re-launch moves the entry to the end instead of duplicating
it. -/
theorem c9_recent_invariant (l : List String) (v : String) (h : l.Nodup) :
    (updateRecent l v).Nodup ∧ (updateRecent l v).length ≤ 10
    ∧ (updateRecent l v).getLast? = some v := by
  have hm : (if v ∈ l then l.erase v else l).Nodup := by
    split
    · exact h.erase v
    · exact h
  have hv : v ∉ (if v ∈ l then l.erase v else l) := by
    split
    · exact h.not_mem_erase
    · assumption
  have hcat : ((if v ∈ l then l.erase v else l) ++ [v]).Nodup := by
    rw [List.nodup_append]
    exact ⟨hm, List.nodup_singleton v, by
      intro a ha hav
      simp at hav
      exact hv (hav ▸ ha)⟩
  refine ⟨?_, ?_, ?_⟩
  · exact (List.drop_sublist _ _).nodup hcat
  · simp only [updateRecent, takeLast, List.length_drop]
    omega
  · have hlen : ((if v ∈ l then l.erase v else l) ++ [v]).length -
        10 < ((if v ∈ l then l.erase v else l) ++ [v]).length := by
      simp
      omega
    simp only [updateRecent, takeLast]
    rw [getLast_drop_of_lt _ _ hlen, List.getLast?_concat]

/-- Claim C9 witness: re-launching 1.20.1 from the two-element recent list
moves it to the end without duplication. -/
theorem c9_witness :
    (updateRecent ["fabric-1.20.1", "1.20.1"] "1.20.1").Nodup
    ∧ (updateRecent ["fabric-1.20.1", "1.20.1"] "1.20.1").length ≤ 10
    ∧ (updateRecent ["fabric-1.20.1", "1.20.1"] "1.20.1").getLast?
        = some "1.20.1" :=
  c9_recent_invariant ["fabric-1.20.1", "1.20.1"] "1.20.1" (by decide)

/-! Claim C10. -/

/-- Claim C10: every save writes a document whose keys are exactly the
fourteen recognized keys, so any other in-memory key — statistics, profiles,
saved_servers, disabled_mods, enabled_resourcepacks, current_profile — is
absent from the persisted document. -/
theorem c10_save_keys (st : AppState) :
    (save_settings st).2.map Prod.fst = knownKeys
    ∧ (∀ k, k ∉ knownKeys → k ∉ (save_settings st).2.map Prod.fst)
    ∧ "statistics" ∉ (save_settings st).2.map Prod.fst
    ∧ "profiles" ∉ (save_settings st).2.map Prod.fst
    ∧ "saved_servers" ∉ (save_settings st).2.map Prod.fst
    ∧ "disabled_mods" ∉ (save_settings st).2.map Prod.fst
    ∧ "enabled_resourcepacks" ∉ (save_settings st).2.map Prod.fst
    ∧ "current_profile" ∉ (save_settings st).2.map Prod.fst := by
  have hkeys : (save_settings st).2.map Prod.fst = knownKeys := rfl
  rw [hkeys]
  refine ⟨rfl, ?_, by decide, by decide, by decide, by decide, by decide, by decide⟩
  intro k hk
  exact hk

/-- Claim C10 witness: the statistics key is absent from the document saved
for the concrete application state. -/
theorem c10_witness :
    "statistics" ∉ ((save_settings baseApp).2.map Prod.fst) := by
  have h := (c10_save_keys baseApp).2.1 "statistics" (by decide)
  exact h

end Launcher
